import Mathlib

/-!
Shallow embedding of `src/epss_cache_db.py` (class `EPSSCacheDB`), the
enrichment-cache component of the vulnerability prioritizer.

Modelling conventions:
* Timestamps are integers (seconds).  The Python code stores
  `datetime.now().isoformat()` strings; ISO-8601 strings compare
  lexicographically in chronological order, and `datetime` subtraction
  compared against `timedelta(days=d)` is exact arithmetic, so both the
  string comparisons (`cached_at > ?`, `cached_at < ?`) and the
  `now - cached_at > timedelta(days=max_age_days)` checks translate to
  integer comparisons with a day equal to 86400 seconds.  The one
  exception is the 24-hour filter of `get_cache_stats`, whose cutoff is
  SQLite's UTC, space-separated `datetime('now', '-24 hours')` string:
  its TEXT comparison against the stored `'T'`-separated strings reduces
  to a comparison of calendar-date prefixes (see `calendarDay` and the
  doc comment on `get_cache_stats`).
* SQLite REAL columns (`epss_score`, `percentile`, `response_time`) are
  modelled as `Rat`: the program stores and returns these values verbatim
  and never performs arithmetic on them.
* Each table is a list of rows; `PRIMARY KEY` uniqueness is an invariant
  (`DBInv`), maintained because `INSERT OR REPLACE` drops any conflicting
  row before inserting.  `AUTOINCREMENT` on `api_call_log.id` is modelled
  by the counter `next_log_id`, which SQLite keeps strictly above every id
  ever issued.
* Every method receives its clock reading explicitly: `now : Int` for the
  methods that call Python's `datetime.now()` (those that call it twice
  within microseconds are modelled with a single reading), and
  `utcNow : Int` for `get_cache_stats`, whose only clock is SQLite's UTC
  `datetime('now', ...)`.
-/

/-- One row of the `epss_cache` table. -/
structure EpssEntry where
  cve_id : String
  epss_score : Rat
  percentile : Rat
  model_version : String
  score_date : String
  cached_at : Int
  last_accessed : Int
deriving DecidableEq, Repr

/-- One row of the `cisa_kev_cache` table. -/
structure KevEntry where
  cve_id : String
  vendor_project : String
  product : String
  vulnerability_name : String
  date_added : String
  short_description : String
  required_action : String
  due_date : String
  cached_at : Int
  last_accessed : Int
deriving DecidableEq, Repr

/-- One row of the `api_call_log` table.  `parameters` holds the
`json.dumps` serialisation of the parameter dict. -/
structure ApiCallLogEntry where
  id : Nat
  api_type : String
  endpoint : String
  parameters : String
  status_code : Int
  response_time : Rat
  cached : Bool
  timestamp : Int
deriving DecidableEq, Repr

/-- One row of the `metadata` table. -/
structure MetadataEntry where
  key : String
  value : String
  updated_at : Int
deriving DecidableEq, Repr

/-- The four tables created by `EPSSCacheDB._init_database`, plus the
`AUTOINCREMENT` counter backing `api_call_log.id`. -/
structure DBState where
  epss_cache : List EpssEntry
  cisa_kev_cache : List KevEntry
  api_call_log : List ApiCallLogEntry
  next_log_id : Nat
  metadata : List MetadataEntry
deriving DecidableEq, Repr

/-- Seconds in one day: `timedelta(days=d)` is `d * 86400` seconds. -/
def secondsPerDay : Int := 86400

/-- `cache_epss_score`: `INSERT OR REPLACE INTO epss_cache`, setting
`cached_at = last_accessed = now`.  REPLACE removes any existing row with
the same primary key. -/
def cache_epss_score (st : DBState) (cve_id : String)
    (epss_score percentile : Rat) (model_version score_date : String)
    (now : Int) : DBState :=
  { st with epss_cache :=
      { cve_id := cve_id, epss_score := epss_score, percentile := percentile,
        model_version := model_version, score_date := score_date,
        cached_at := now, last_accessed := now } ::
      st.epss_cache.filter (fun e => decide (e.cve_id ≠ cve_id)) }

/-- The dict returned by `get_epss_score` on a fresh hit. -/
structure EpssResult where
  epss : Rat
  percentile : Rat
  model_version : String
  score_date : String
deriving DecidableEq, Repr

/-- `get_epss_score`: look up the row, return `None` when absent, return
`None` when `now - cached_at > timedelta(days=max_age_days)` (expired),
otherwise `UPDATE epss_cache SET last_accessed = now` for that key and
return the score fields.  The second component is the database state after
the call. -/
def get_epss_score (st : DBState) (cve_id : String) (max_age_days : Int)
    (now : Int) : Option EpssResult × DBState :=
  match st.epss_cache.find? (fun e => decide (e.cve_id = cve_id)) with
  | none => (none, st)
  | some e =>
    if now - e.cached_at > max_age_days * secondsPerDay then
      (none, st)
    else
      (some { epss := e.epss_score, percentile := e.percentile,
              model_version := e.model_version, score_date := e.score_date },
       { st with epss_cache := st.epss_cache.map (fun x =>
           if x.cve_id = cve_id then { x with last_accessed := now } else x) })

/-- `cache_cisa_kev`: `INSERT OR REPLACE INTO cisa_kev_cache`, setting
`cached_at = last_accessed = now`. -/
def cache_cisa_kev (st : DBState) (cve_id vendor_project product
    vulnerability_name date_added short_description required_action
    due_date : String) (now : Int) : DBState :=
  { st with cisa_kev_cache :=
      { cve_id := cve_id, vendor_project := vendor_project,
        product := product, vulnerability_name := vulnerability_name,
        date_added := date_added, short_description := short_description,
        required_action := required_action, due_date := due_date,
        cached_at := now, last_accessed := now } ::
      st.cisa_kev_cache.filter (fun e => decide (e.cve_id ≠ cve_id)) }

/-- `is_in_cisa_kev`: returns `False` when the row is absent, `False` when
`now - cached_at > timedelta(days=max_age_days)` (expired), otherwise
updates `last_accessed` and returns `True`. -/
def is_in_cisa_kev (st : DBState) (cve_id : String) (max_age_days : Int)
    (now : Int) : Bool × DBState :=
  match st.cisa_kev_cache.find? (fun e => decide (e.cve_id = cve_id)) with
  | none => (false, st)
  | some e =>
    if now - e.cached_at > max_age_days * secondsPerDay then
      (false, st)
    else
      (true,
       { st with cisa_kev_cache := st.cisa_kev_cache.map (fun x =>
           if x.cve_id = cve_id then { x with last_accessed := now } else x) })

/-- `get_all_cisa_kev_cves`: `SELECT cve_id FROM cisa_kev_cache WHERE
cached_at > cutoff` with `cutoff = now - timedelta(days=max_age_days)`;
note the strict `>` on `cached_at`.  Returns the set of ids (as a list of
the distinct keys) and leaves the state untouched. -/
def get_all_cisa_kev_cves (st : DBState) (max_age_days : Int) (now : Int) :
    List String × DBState :=
  (((st.cisa_kev_cache.filter
      (fun e => decide (now - max_age_days * secondsPerDay < e.cached_at))).map
      (fun e => e.cve_id)),
   st)

/-- `log_api_call`: `INSERT INTO api_call_log`, the `id` column filled by
`AUTOINCREMENT`. -/
def log_api_call (st : DBState) (api_type endpoint parameters : String)
    (status_code : Int) (response_time : Rat) (cached : Bool) (now : Int) :
    DBState :=
  { st with
    api_call_log := st.api_call_log ++
      [{ id := st.next_log_id, api_type := api_type, endpoint := endpoint,
         parameters := parameters, status_code := status_code,
         response_time := response_time, cached := cached,
         timestamp := now }],
    next_log_id := st.next_log_id + 1 }

/-- The dict returned by `get_cache_stats`.  `recent_calls_by_type`
models the `GROUP BY api_type` result as the function sending each
`api_type` to its count (absent keys of the Python dict map to 0). -/
structure CacheStats where
  epss_cached_entries : Nat
  cisa_kev_cached_entries : Nat
  total_api_calls : Nat
  cached_api_calls : Nat
  recent_calls_by_type : String → Nat

/-- The calendar date of a timestamp, as a day index: the `YYYY-MM-DD`
prefix of its rendered form, with day boundaries at multiples of 86400
seconds (floor division, so it is the date also for negative times). -/
def calendarDay (t : Int) : Int := Int.fdiv t secondsPerDay

/-- `get_cache_stats`: five `SELECT` statements, no writes.  The 24-hour
filter is `WHERE timestamp > datetime('now', '-24 hours')`: the stored
`timestamp` column holds Python `datetime.now().isoformat()` strings —
local time, with a `'T'` between date and time — while SQLite renders
`datetime('now', '-24 hours')` from its own UTC clock with a space
between date and time and no fractional seconds.  SQLite compares the two
as TEXT: the 10-character date prefixes decide when they differ, and when
they are equal the 11th character decides — `'T'` (0x54) against
`' '` (0x20) — so the stored string wins every tie.  The filter therefore
accepts an entry exactly when the calendar date of its stored (local)
timestamp is on or after the calendar date of the UTC instant 24 hours
before the report; `utcNow` is SQLite's UTC clock reading, the only clock
this method consults. -/
def get_cache_stats (st : DBState) (utcNow : Int) : CacheStats × DBState :=
  ({ epss_cached_entries := st.epss_cache.length,
     cisa_kev_cached_entries := st.cisa_kev_cache.length,
     total_api_calls := st.api_call_log.length,
     cached_api_calls := (st.api_call_log.filter (fun a => a.cached)).length,
     recent_calls_by_type := fun t =>
       (st.api_call_log.filter (fun a =>
         decide (a.api_type = t) &&
           decide (calendarDay (utcNow - secondsPerDay) ≤
             calendarDay a.timestamp))).length },
   st)

/-- The dict returned by `clear_expired_cache`. -/
structure SweepResult where
  epss_deleted : Nat
  kev_deleted : Nat
deriving DecidableEq, Repr

/-- `clear_expired_cache`: `DELETE FROM epss_cache WHERE cached_at < ?`
and `DELETE FROM cisa_kev_cache WHERE cached_at < ?` with cutoffs
`now - timedelta(days=·)`; returns the two `rowcount`s. -/
def clear_expired_cache (st : DBState) (epss_max_age_days kev_max_age_days : Int)
    (now : Int) : SweepResult × DBState :=
  let epss_cutoff := now - epss_max_age_days * secondsPerDay
  let kev_cutoff := now - kev_max_age_days * secondsPerDay
  ({ epss_deleted :=
       (st.epss_cache.filter (fun e => decide (e.cached_at < epss_cutoff))).length,
     kev_deleted :=
       (st.cisa_kev_cache.filter (fun e => decide (e.cached_at < kev_cutoff))).length },
   { st with
     epss_cache :=
       st.epss_cache.filter (fun e => decide (¬ e.cached_at < epss_cutoff)),
     cisa_kev_cache :=
       st.cisa_kev_cache.filter (fun e => decide (¬ e.cached_at < kev_cutoff)) })

/-- A freshly initialised database: `_init_database` creates empty tables
(`AUTOINCREMENT` ids start at 1) and two metadata rows. -/
def emptyDB : DBState :=
  { epss_cache := [], cisa_kev_cache := [], api_call_log := [],
    next_log_id := 1,
    metadata := [{ key := "db_version", value := "1.0", updated_at := 0 },
                 { key := "created_at", value := "", updated_at := 0 }] }

/-- A database whose KEV table holds one entry cached at time 0; used to
exhibit the freshness boundary `now - cached_at = max_age`. -/
def kevBoundaryDB : DBState :=
  { emptyDB with cisa_kev_cache :=
      [{ cve_id := "CVE-1", vendor_project := "V", product := "P",
         vulnerability_name := "N", date_added := "2024-01-01",
         short_description := "D", required_action := "act",
         due_date := "2024-02-01", cached_at := 0, last_accessed := 0 }] }

/-- A database whose EPSS table holds one entry cached at time 0. -/
def epssBoundaryDB : DBState :=
  { emptyDB with epss_cache :=
      [{ cve_id := "CVE-1", epss_score := mkRat 1 2, percentile := 85,
         model_version := "v1", score_date := "2024-01-01",
         cached_at := 0, last_accessed := 0 }] }

/-- Rewrite every entry's `last_accessed` to an arbitrary value (per key),
leaving every other column alone; used to state that freshness decisions
never consult `last_accessed`. -/
def dbSetLastAccessed (st : DBState) (g : String → Int) : DBState :=
  { st with
    epss_cache := st.epss_cache.map
      (fun e => { e with last_accessed := g e.cve_id }),
    cisa_kev_cache := st.cisa_kev_cache.map
      (fun e => { e with last_accessed := g e.cve_id }) }

/-- A database built by three `cache_epss_score` inserts at time 0; read
against it 10 days later for the sweep scenario. -/
def threeEpssDB : DBState :=
  cache_epss_score
    (cache_epss_score
      (cache_epss_score emptyDB "CVE-A" (mkRat 1 10) 10 "v" "2024-01-01" 0)
      "CVE-B" (mkRat 2 10) 20 "v" "2024-01-01" 0)
    "CVE-C" (mkRat 3 10) 30 "v" "2024-01-01" 0

/-- The data-model invariant of the two cache tables: keys are unique
(`PRIMARY KEY`) and every row satisfies `cached_at ≤ last_accessed`. -/
def DBInv (st : DBState) : Prop :=
  (st.epss_cache.map (fun e => e.cve_id)).Nodup ∧
  (st.cisa_kev_cache.map (fun e => e.cve_id)).Nodup ∧
  (∀ e ∈ st.epss_cache, e.cached_at ≤ e.last_accessed) ∧
  (∀ e ∈ st.cisa_kev_cache, e.cached_at ≤ e.last_accessed)

/-- Rewrite every audit entry's sequence number through an arbitrary
function, leaving all other attributes alone; used to state that the
statistics never consult sequence numbers. -/
def reassignIds (st : DBState) (f : Nat → Nat) : DBState :=
  { st with api_call_log := st.api_call_log.map (fun a => { a with id := f a.id }) }

/-- A database holding a single audit entry, written by `log_api_call`
itself: an EPSS call stamped at time 0 (second 0 of day 0). -/
def staleLogDB : DBState :=
  log_api_call emptyDB "EPSS" "https://api.first.org/data/v1/epss"
    "{}" 200 (mkRat 1 2) false 0

/-- A database holding two audit entries, written by `log_api_call`
itself: one EPSS call at time 0 and one KEV call at time 50. -/
def demoLogDB : DBState :=
  log_api_call
    (log_api_call emptyDB "EPSS" "https://api.first.org/data/v1/epss"
      "{}" 200 (mkRat 1 2) false 0)
    "CISA_KEV" "https://www.cisa.gov/kev" "{}" 200 (mkRat 3 10) false 50

/-- C1 counterexample: at `now - cached_at = max_age` exactly (entry
cached at 0, read at 86400 seconds with a 1-day max-age), the row-lookup
KEV path `is_in_cisa_kev` still returns the entry (inclusive boundary),
but the list-KEV path `get_all_cisa_kev_cves` already excludes it — the
boundary behavior is not identical across the KEV read paths. -/
theorem C1_counterexample :
    (is_in_cisa_kev kevBoundaryDB "CVE-1" 1 86400).1 = true ∧
    "CVE-1" ∉ (get_all_cisa_kev_cves kevBoundaryDB 1 86400).1 ∧
    ((get_epss_score epssBoundaryDB "CVE-1" 7 (7 * 86400)).1).isSome = true := by
  decide

theorem find?_epss_setLA (st : DBState) (g : String → Int) (id : String) :
    (dbSetLastAccessed st g).epss_cache.find? (fun x => decide (x.cve_id = id)) =
      (st.epss_cache.find? (fun x => decide (x.cve_id = id))).map
        (fun e => { e with last_accessed := g e.cve_id }) := by
  simp [dbSetLastAccessed, List.find?_map, Function.comp_def]

theorem find?_kev_setLA (st : DBState) (g : String → Int) (id : String) :
    (dbSetLastAccessed st g).cisa_kev_cache.find? (fun x => decide (x.cve_id = id)) =
      (st.cisa_kev_cache.find? (fun x => decide (x.cve_id = id))).map
        (fun e => { e with last_accessed := g e.cve_id }) := by
  simp [dbSetLastAccessed, List.find?_map, Function.comp_def]

theorem get_epss_score_fst_setLA (st : DBState) (g : String → Int)
    (id : String) (A now : Int) :
    (get_epss_score (dbSetLastAccessed st g) id A now).1 =
      (get_epss_score st id A now).1 := by
  unfold get_epss_score
  rw [find?_epss_setLA]
  cases st.epss_cache.find? (fun x => decide (x.cve_id = id)) with
  | none => rfl
  | some e =>
    simp only [Option.map_some]
    by_cases h : now - e.cached_at > A * secondsPerDay
    · simp [h]
    · simp [h]

theorem is_in_cisa_kev_fst_setLA (st : DBState) (g : String → Int)
    (id : String) (A now : Int) :
    (is_in_cisa_kev (dbSetLastAccessed st g) id A now).1 =
      (is_in_cisa_kev st id A now).1 := by
  unfold is_in_cisa_kev
  rw [find?_kev_setLA]
  cases st.cisa_kev_cache.find? (fun x => decide (x.cve_id = id)) with
  | none => rfl
  | some e =>
    simp only [Option.map_some]
    by_cases h : now - e.cached_at > A * secondsPerDay
    · simp [h]
    · simp [h]

theorem get_all_cisa_kev_cves_fst_setLA (st : DBState) (g : String → Int)
    (A now : Int) :
    (get_all_cisa_kev_cves (dbSetLastAccessed st g) A now).1 =
      (get_all_cisa_kev_cves st A now).1 := by
  simp only [get_all_cisa_kev_cves, dbSetLastAccessed, List.filter_map,
    List.map_map, Function.comp_def]

/-- C1 (amended): the two row-lookup paths share the inclusive boundary —
`get_epss_score` returns a record, and `is_in_cisa_kev` returns `true`,
exactly when the row exists and `now - cached_at ≤ max_age` — while
`get_all_cisa_kev_cves` lists an id exactly when its row satisfies the
strict `now - cached_at < max_age` (exclusive boundary); all three
decisions depend only on `cached_at`, never on `last_accessed`. -/
theorem C1_amended (st : DBState) (id : String) (A now : Int) :
    (((get_epss_score st id A now).1.isSome = true ↔
      ∃ e, st.epss_cache.find? (fun x => decide (x.cve_id = id)) = some e ∧
        now - e.cached_at ≤ A * secondsPerDay) ∧
    ((is_in_cisa_kev st id A now).1 = true ↔
      ∃ e, st.cisa_kev_cache.find? (fun x => decide (x.cve_id = id)) = some e ∧
        now - e.cached_at ≤ A * secondsPerDay) ∧
    (id ∈ (get_all_cisa_kev_cves st A now).1 ↔
      ∃ e ∈ st.cisa_kev_cache, e.cve_id = id ∧
        now - e.cached_at < A * secondsPerDay)) ∧
    ∀ g : String → Int,
      (get_epss_score (dbSetLastAccessed st g) id A now).1 =
        (get_epss_score st id A now).1 ∧
      (is_in_cisa_kev (dbSetLastAccessed st g) id A now).1 =
        (is_in_cisa_kev st id A now).1 ∧
      (get_all_cisa_kev_cves (dbSetLastAccessed st g) A now).1 =
        (get_all_cisa_kev_cves st A now).1 := by
  refine ⟨⟨?_, ?_, ?_⟩, fun g =>
    ⟨get_epss_score_fst_setLA st g id A now,
     is_in_cisa_kev_fst_setLA st g id A now,
     get_all_cisa_kev_cves_fst_setLA st g A now⟩⟩
  · cases hfind : st.epss_cache.find? (fun x => decide (x.cve_id = id)) with
    | none => simp [get_epss_score, hfind]
    | some e =>
      simp only [get_epss_score, hfind]
      split
      · rename_i hgt
        simp only [Option.isSome_none, Bool.false_eq_true, false_iff]
        rintro ⟨e', he', hle⟩
        cases he'
        omega
      · rename_i hle
        simp only [Option.isSome_some, true_iff]
        exact ⟨e, rfl, by omega⟩
  · cases hfind : st.cisa_kev_cache.find? (fun x => decide (x.cve_id = id)) with
    | none => simp [is_in_cisa_kev, hfind]
    | some e =>
      simp only [is_in_cisa_kev, hfind]
      split
      · rename_i hgt
        simp only [Bool.false_eq_true, false_iff]
        rintro ⟨e', he', hle⟩
        cases he'
        omega
      · rename_i hle
        simp only [true_iff]
        exact ⟨e, rfl, by omega⟩
  · simp only [get_all_cisa_kev_cves, List.mem_map, List.mem_filter,
      decide_eq_true_iff]
    constructor
    · rintro ⟨e, ⟨hmem, hlt⟩, hcve⟩
      exact ⟨e, hmem, hcve, by omega⟩
    · rintro ⟨e, hmem, hcve, hlt⟩
      exact ⟨e, ⟨hmem, by omega⟩, hcve⟩

/-- C2 counterexample: the KEV membership lookup returns the plain boolean
`false` both for an identifier never inserted (here, on a fresh database)
and for a stale entry (here, one cached 10 days before a 1-day-max-age
read); the codomain has no third value, so the "unknown" outcome is not
distinguishable from a reported non-membership. -/
theorem C2_counterexample :
    (is_in_cisa_kev emptyDB "CVE-1" 1 86400).1 = false ∧
    (is_in_cisa_kev kevBoundaryDB "CVE-1" 1 (10 * 86400)).1 = false := by
  decide

/-- C2 (amended): `is_in_cisa_kev` returns `true` only for a fresh stored
entry; for a never-inserted identifier and for a stale entry it returns
the one value `false`, so the boolean result conflates "unknown" with
"not flagged" and the distinction is left to the caller. -/
theorem C2_amended (st st2 : DBState) (id : String) (A now A2 now2 : Int)
    (habsent : st.cisa_kev_cache.find? (fun x => decide (x.cve_id = id)) = none)
    (e : KevEntry)
    (hfind : st2.cisa_kev_cache.find? (fun x => decide (x.cve_id = id)) = some e)
    (hstale : now2 - e.cached_at > A2 * secondsPerDay) :
    (is_in_cisa_kev st id A now).1 = false ∧
    (is_in_cisa_kev st2 id A2 now2).1 = false := by
  constructor
  · simp [is_in_cisa_kev, habsent]
  · simp [is_in_cisa_kev, hfind, hstale]

/-- Witness for C2 (amended), at a fresh database and at a database whose
sole KEV entry was cached 10 days before a 1-day-max-age read. -/
theorem C2_amended_witness :
    (is_in_cisa_kev emptyDB "CVE-1" 1 500).1 = false ∧
    (is_in_cisa_kev kevBoundaryDB "CVE-1" 1 (10 * 86400)).1 = false :=
  C2_amended emptyDB kevBoundaryDB "CVE-1" 1 500 1 (10 * 86400)
    (by decide)
    { cve_id := "CVE-1", vendor_project := "V", product := "P",
      vulnerability_name := "N", date_added := "2024-01-01",
      short_description := "D", required_action := "act",
      due_date := "2024-02-01", cached_at := 0, last_accessed := 0 }
    (by decide) (by decide)

/-- C3: upserting the same identifier twice with identical field values
leaves a single entry whose non-timestamp fields match both writes (only
`cached_at`/`last_accessed` moved from `t1` to `t2`), leaves the rest of
the EPSS table and every other table exactly as after the first write,
and a subsequent fresh read returns the latest stored values. -/
theorem C3_idempotent_upsert (st : DBState) (id : String) (e p : Rat)
    (mv sd : String) (t1 t2 A now : Int)
    (hfresh : now - t2 ≤ A * secondsPerDay) :
    ((cache_epss_score st id e p mv sd t1).epss_cache.find?
        (fun x => decide (x.cve_id = id)) =
      some { cve_id := id, epss_score := e, percentile := p,
             model_version := mv, score_date := sd,
             cached_at := t1, last_accessed := t1 }) ∧
    ((cache_epss_score (cache_epss_score st id e p mv sd t1) id e p mv sd t2).epss_cache.find?
        (fun x => decide (x.cve_id = id)) =
      some { cve_id := id, epss_score := e, percentile := p,
             model_version := mv, score_date := sd,
             cached_at := t2, last_accessed := t2 }) ∧
    ((cache_epss_score (cache_epss_score st id e p mv sd t1) id e p mv sd t2).epss_cache.filter
        (fun x => decide (x.cve_id ≠ id)) =
      (cache_epss_score st id e p mv sd t1).epss_cache.filter
        (fun x => decide (x.cve_id ≠ id))) ∧
    ((cache_epss_score (cache_epss_score st id e p mv sd t1) id e p mv sd t2).cisa_kev_cache =
        st.cisa_kev_cache) ∧
    ((cache_epss_score (cache_epss_score st id e p mv sd t1) id e p mv sd t2).api_call_log =
        st.api_call_log) ∧
    ((cache_epss_score (cache_epss_score st id e p mv sd t1) id e p mv sd t2).metadata =
        st.metadata) ∧
    ((get_epss_score (cache_epss_score (cache_epss_score st id e p mv sd t1) id e p mv sd t2)
        id A now).1 =
      some { epss := e, percentile := p, model_version := mv, score_date := sd }) := by
  have hf2 : (cache_epss_score (cache_epss_score st id e p mv sd t1) id e p mv sd t2).epss_cache.find?
      (fun x => decide (x.cve_id = id)) =
      some { cve_id := id, epss_score := e, percentile := p,
             model_version := mv, score_date := sd,
             cached_at := t2, last_accessed := t2 } := by
    simp [cache_epss_score]
  refine ⟨by simp [cache_epss_score], hf2, ?_, rfl, rfl, rfl, ?_⟩
  · simp [cache_epss_score, List.filter_filter]
  · simp only [get_epss_score, hf2]
    rw [if_neg (by omega)]

/-- Witness for C3 at a fresh database, identifier CVE-9, score 0.5,
writes at times 10 and 20, read at time 30 with a 7-day max-age. -/
theorem C3_idempotent_upsert_witness :
    ((cache_epss_score emptyDB "CVE-9" 0.5 85 "m" "2024-06-01" 10).epss_cache.find?
        (fun x => decide (x.cve_id = "CVE-9")) =
      some { cve_id := "CVE-9", epss_score := 0.5, percentile := 85,
             model_version := "m", score_date := "2024-06-01",
             cached_at := 10, last_accessed := 10 }) ∧
    ((cache_epss_score (cache_epss_score emptyDB "CVE-9" 0.5 85 "m" "2024-06-01" 10)
        "CVE-9" 0.5 85 "m" "2024-06-01" 20).epss_cache.find?
        (fun x => decide (x.cve_id = "CVE-9")) =
      some { cve_id := "CVE-9", epss_score := 0.5, percentile := 85,
             model_version := "m", score_date := "2024-06-01",
             cached_at := 20, last_accessed := 20 }) ∧
    ((cache_epss_score (cache_epss_score emptyDB "CVE-9" 0.5 85 "m" "2024-06-01" 10)
        "CVE-9" 0.5 85 "m" "2024-06-01" 20).epss_cache.filter
        (fun x => decide (x.cve_id ≠ "CVE-9")) =
      (cache_epss_score emptyDB "CVE-9" 0.5 85 "m" "2024-06-01" 10).epss_cache.filter
        (fun x => decide (x.cve_id ≠ "CVE-9"))) ∧
    ((cache_epss_score (cache_epss_score emptyDB "CVE-9" 0.5 85 "m" "2024-06-01" 10)
        "CVE-9" 0.5 85 "m" "2024-06-01" 20).cisa_kev_cache = emptyDB.cisa_kev_cache) ∧
    ((cache_epss_score (cache_epss_score emptyDB "CVE-9" 0.5 85 "m" "2024-06-01" 10)
        "CVE-9" 0.5 85 "m" "2024-06-01" 20).api_call_log = emptyDB.api_call_log) ∧
    ((cache_epss_score (cache_epss_score emptyDB "CVE-9" 0.5 85 "m" "2024-06-01" 10)
        "CVE-9" 0.5 85 "m" "2024-06-01" 20).metadata = emptyDB.metadata) ∧
    ((get_epss_score (cache_epss_score (cache_epss_score emptyDB "CVE-9" 0.5 85 "m" "2024-06-01" 10)
        "CVE-9" 0.5 85 "m" "2024-06-01" 20) "CVE-9" 7 30).1 =
      some { epss := 0.5, percentile := 85, model_version := "m",
             score_date := "2024-06-01" }) :=
  C3_idempotent_upsert emptyDB "CVE-9" 0.5 85 "m" "2024-06-01" 10 20 7 30 (by decide)

/-- C4: after `cache_epss_score("CVE-1", 0.42, 90.0, "v1", "2024-01-01")`
at time 0, a `get_epss_score("CVE-1", 7)` issued at any time within the
7-day window returns exactly that record, and the same call issued 7 days
plus 1 second after the write returns `none`. -/
theorem C4_roundtrip (now : Int) (h0 : 0 ≤ now) (h7 : now ≤ 7 * secondsPerDay) :
    ((get_epss_score (cache_epss_score emptyDB "CVE-1" 0.42 90.0 "v1" "2024-01-01" 0)
        "CVE-1" 7 now).1 =
      some { epss := 0.42, percentile := 90.0, model_version := "v1",
             score_date := "2024-01-01" }) ∧
    ((get_epss_score (cache_epss_score emptyDB "CVE-1" 0.42 90.0 "v1" "2024-01-01" 0)
        "CVE-1" 7 (7 * secondsPerDay + 1)).1 = none) := by
  have hf : (cache_epss_score emptyDB "CVE-1" 0.42 90.0 "v1" "2024-01-01" 0).epss_cache.find?
      (fun x => decide (x.cve_id = "CVE-1")) =
      some { cve_id := "CVE-1", epss_score := 0.42, percentile := 90.0,
             model_version := "v1", score_date := "2024-01-01",
             cached_at := 0, last_accessed := 0 } := by
    simp [cache_epss_score]
  constructor
  · simp only [get_epss_score, hf]
    rw [if_neg (by omega)]
  · simp only [get_epss_score, hf]
    rw [if_pos (by decide)]

/-- Witness for C4 at a read one day after the write. -/
theorem C4_roundtrip_witness :
    ((get_epss_score (cache_epss_score emptyDB "CVE-1" 0.42 90.0 "v1" "2024-01-01" 0)
        "CVE-1" 7 86400).1 =
      some { epss := 0.42, percentile := 90.0, model_version := "v1",
             score_date := "2024-01-01" }) ∧
    ((get_epss_score (cache_epss_score emptyDB "CVE-1" 0.42 90.0 "v1" "2024-01-01" 0)
        "CVE-1" 7 (7 * secondsPerDay + 1)).1 = none) :=
  C4_roundtrip 86400 (by decide) (by decide)

/-- C5: a fresh-hit read (`get_epss_score` or `is_in_cisa_kev`) rewrites
only the `last_accessed` column of the matching row — every other column
of every row, in particular `cached_at`, and every other table are left
unchanged — and `get_cache_stats` never changes the database at all. -/
theorem C5_access_tracking (st : DBState) (now : Int) :
    (∀ id A e, st.epss_cache.find? (fun x => decide (x.cve_id = id)) = some e →
      now - e.cached_at ≤ A * secondsPerDay →
      List.Forall₂ (fun old new =>
          new.cve_id = old.cve_id ∧ new.epss_score = old.epss_score ∧
          new.percentile = old.percentile ∧
          new.model_version = old.model_version ∧
          new.score_date = old.score_date ∧ new.cached_at = old.cached_at ∧
          (old.cve_id ≠ id → new.last_accessed = old.last_accessed) ∧
          (old.cve_id = id → new.last_accessed = now))
        st.epss_cache ((get_epss_score st id A now).2.epss_cache) ∧
      (get_epss_score st id A now).2.cisa_kev_cache = st.cisa_kev_cache ∧
      (get_epss_score st id A now).2.api_call_log = st.api_call_log ∧
      (get_epss_score st id A now).2.next_log_id = st.next_log_id ∧
      (get_epss_score st id A now).2.metadata = st.metadata) ∧
    (∀ id A e, st.cisa_kev_cache.find? (fun x => decide (x.cve_id = id)) = some e →
      now - e.cached_at ≤ A * secondsPerDay →
      List.Forall₂ (fun old new =>
          new.cve_id = old.cve_id ∧ new.vendor_project = old.vendor_project ∧
          new.product = old.product ∧
          new.vulnerability_name = old.vulnerability_name ∧
          new.date_added = old.date_added ∧
          new.short_description = old.short_description ∧
          new.required_action = old.required_action ∧
          new.due_date = old.due_date ∧ new.cached_at = old.cached_at ∧
          (old.cve_id ≠ id → new.last_accessed = old.last_accessed) ∧
          (old.cve_id = id → new.last_accessed = now))
        st.cisa_kev_cache ((is_in_cisa_kev st id A now).2.cisa_kev_cache) ∧
      (is_in_cisa_kev st id A now).2.epss_cache = st.epss_cache ∧
      (is_in_cisa_kev st id A now).2.api_call_log = st.api_call_log ∧
      (is_in_cisa_kev st id A now).2.next_log_id = st.next_log_id ∧
      (is_in_cisa_kev st id A now).2.metadata = st.metadata) ∧
    (∀ t, (get_cache_stats st t).2 = st) := by
  refine ⟨?_, ?_, fun t => rfl⟩
  · intro id A e hfind hfr
    have hstate : (get_epss_score st id A now).2 =
        { st with epss_cache := st.epss_cache.map (fun x =>
            if x.cve_id = id then { x with last_accessed := now } else x) } := by
      simp only [get_epss_score, hfind]
      rw [if_neg (by omega)]
    rw [hstate]
    refine ⟨?_, rfl, rfl, rfl, rfl⟩
    rw [List.forall₂_map_right_iff, List.forall₂_same]
    intro x hx
    by_cases hid : x.cve_id = id
    · simp [hid]
    · simp [hid]
  · intro id A e hfind hfr
    have hstate : (is_in_cisa_kev st id A now).2 =
        { st with cisa_kev_cache := st.cisa_kev_cache.map (fun x =>
            if x.cve_id = id then { x with last_accessed := now } else x) } := by
      simp only [is_in_cisa_kev, hfind]
      rw [if_neg (by omega)]
    rw [hstate]
    refine ⟨?_, rfl, rfl, rfl, rfl⟩
    rw [List.forall₂_map_right_iff, List.forall₂_same]
    intro x hx
    by_cases hid : x.cve_id = id
    · simp [hid]
    · simp [hid]

/-- Witness for C5: reading the one fresh EPSS entry of `epssBoundaryDB`
at time 100 touches only that row's `last_accessed`. -/
theorem C5_access_tracking_witness :
    List.Forall₂ (fun old new =>
        new.cve_id = old.cve_id ∧ new.epss_score = old.epss_score ∧
        new.percentile = old.percentile ∧
        new.model_version = old.model_version ∧
        new.score_date = old.score_date ∧ new.cached_at = old.cached_at ∧
        (old.cve_id ≠ "CVE-1" → new.last_accessed = old.last_accessed) ∧
        (old.cve_id = "CVE-1" → new.last_accessed = 100))
      epssBoundaryDB.epss_cache
      ((get_epss_score epssBoundaryDB "CVE-1" 7 100).2.epss_cache) ∧
    (get_epss_score epssBoundaryDB "CVE-1" 7 100).2.cisa_kev_cache =
      epssBoundaryDB.cisa_kev_cache ∧
    (get_epss_score epssBoundaryDB "CVE-1" 7 100).2.api_call_log =
      epssBoundaryDB.api_call_log ∧
    (get_epss_score epssBoundaryDB "CVE-1" 7 100).2.next_log_id =
      epssBoundaryDB.next_log_id ∧
    (get_epss_score epssBoundaryDB "CVE-1" 7 100).2.metadata =
      epssBoundaryDB.metadata :=
  (C5_access_tracking epssBoundaryDB 100).1 "CVE-1" 7
    { cve_id := "CVE-1", epss_score := mkRat 1 2, percentile := 85,
      model_version := "v1", score_date := "2024-01-01",
      cached_at := 0, last_accessed := 0 }
    (by decide) (by decide)

/-- C6: `clear_expired_cache` keeps exactly the EPSS rows not older than
the EPSS max-age and the KEV rows not older than the KEV max-age, reports
the number of deleted rows per family, touches no other table; and on a
database of 3 EPSS entries cached 10 days earlier,
`clear_expired_cache(7, 1)` deletes all 3 and reports `epss_deleted = 3`. -/
theorem C6_sweep (st : DBState) (eA kA now : Int) :
    (∀ e, e ∈ (clear_expired_cache st eA kA now).2.epss_cache ↔
       e ∈ st.epss_cache ∧ now - e.cached_at ≤ eA * secondsPerDay) ∧
    (∀ e, e ∈ (clear_expired_cache st eA kA now).2.cisa_kev_cache ↔
       e ∈ st.cisa_kev_cache ∧ now - e.cached_at ≤ kA * secondsPerDay) ∧
    ((clear_expired_cache st eA kA now).1.epss_deleted =
       st.epss_cache.countP (fun e => decide (now - e.cached_at > eA * secondsPerDay))) ∧
    ((clear_expired_cache st eA kA now).1.kev_deleted =
       st.cisa_kev_cache.countP (fun e => decide (now - e.cached_at > kA * secondsPerDay))) ∧
    ((clear_expired_cache st eA kA now).2.api_call_log = st.api_call_log) ∧
    ((clear_expired_cache st eA kA now).2.next_log_id = st.next_log_id) ∧
    ((clear_expired_cache st eA kA now).2.metadata = st.metadata) ∧
    ((clear_expired_cache threeEpssDB 7 1 (10 * 86400)).1.epss_deleted = 3) ∧
    ((clear_expired_cache threeEpssDB 7 1 (10 * 86400)).2.epss_cache = []) := by
  refine ⟨?_, ?_, ?_, ?_, rfl, rfl, rfl, by decide, by decide⟩
  · intro e
    simp only [clear_expired_cache, List.mem_filter, decide_eq_true_iff]
    constructor
    · rintro ⟨hm, hc⟩
      exact ⟨hm, by omega⟩
    · rintro ⟨hm, hc⟩
      exact ⟨hm, by omega⟩
  · intro e
    simp only [clear_expired_cache, List.mem_filter, decide_eq_true_iff]
    constructor
    · rintro ⟨hm, hc⟩
      exact ⟨hm, by omega⟩
    · rintro ⟨hm, hc⟩
      exact ⟨hm, by omega⟩
  · simp only [clear_expired_cache]
    rw [List.countP_eq_length_filter]
    congr 1
    apply List.filter_congr
    intro a _
    simp only [decide_eq_decide]
    omega
  · simp only [clear_expired_cache]
    rw [List.countP_eq_length_filter]
    congr 1
    apply List.filter_congr
    intro a _
    simp only [decide_eq_decide]
    omega

/-- C7: `log_api_call` appends exactly one audit entry whose sequence
number is strictly greater than every existing entry's, keeps the counter
strictly above all stored ids, and no other cache operation — including
`clear_expired_cache` — updates or deletes any existing audit entry. -/
theorem C7_audit_append_only (st : DBState) (ty ep ps : String) (sc : Int)
    (rt : Rat) (c : Bool) (now : Int)
    (hinv : ∀ a ∈ st.api_call_log, a.id < st.next_log_id) :
    (∃ a, (log_api_call st ty ep ps sc rt c now).api_call_log =
        st.api_call_log ++ [a] ∧ ∀ b ∈ st.api_call_log, b.id < a.id) ∧
    (∀ a ∈ (log_api_call st ty ep ps sc rt c now).api_call_log,
        a.id < (log_api_call st ty ep ps sc rt c now).next_log_id) ∧
    (∀ id e p mv sd t,
        (cache_epss_score st id e p mv sd t).api_call_log = st.api_call_log) ∧
    (∀ id v pr vn da sd ra dd t,
        (cache_cisa_kev st id v pr vn da sd ra dd t).api_call_log =
          st.api_call_log) ∧
    (∀ id A t, (get_epss_score st id A t).2.api_call_log = st.api_call_log) ∧
    (∀ id A t, (is_in_cisa_kev st id A t).2.api_call_log = st.api_call_log) ∧
    (∀ A t, (get_all_cisa_kev_cves st A t).2.api_call_log = st.api_call_log) ∧
    (∀ t, (get_cache_stats st t).2.api_call_log = st.api_call_log) ∧
    (∀ eA kA t,
        (clear_expired_cache st eA kA t).2.api_call_log = st.api_call_log) := by
  refine ⟨?_, ?_, fun _ _ _ _ _ _ => rfl, fun _ _ _ _ _ _ _ _ _ => rfl,
    ?_, ?_, fun _ _ => rfl, fun _ => rfl, fun _ _ _ => rfl⟩
  · exact ⟨_, rfl, hinv⟩
  · intro a ha
    simp only [log_api_call, List.mem_append, List.mem_singleton] at ha
    rcases ha with ha | ha
    · have := hinv a ha
      simp only [log_api_call]
      omega
    · subst ha
      simp [log_api_call]
  · intro id A t
    unfold get_epss_score
    cases st.epss_cache.find? (fun e => decide (e.cve_id = id)) with
    | none => rfl
    | some e =>
      by_cases h : t - e.cached_at > A * secondsPerDay
      · simp [h]
      · simp [h]
  · intro id A t
    unfold is_in_cisa_kev
    cases st.cisa_kev_cache.find? (fun e => decide (e.cve_id = id)) with
    | none => rfl
    | some e =>
      by_cases h : t - e.cached_at > A * secondsPerDay
      · simp [h]
      · simp [h]

/-- Witness for C7 on a database already holding two audit entries. -/
theorem C7_audit_append_only_witness :
    (∃ a, (log_api_call demoLogDB "EPSS" "e" "{}" 200 (mkRat 1 2) true 100).api_call_log =
        demoLogDB.api_call_log ++ [a] ∧
        ∀ b ∈ demoLogDB.api_call_log, b.id < a.id) ∧
    (∀ a ∈ (log_api_call demoLogDB "EPSS" "e" "{}" 200 (mkRat 1 2) true 100).api_call_log,
        a.id < (log_api_call demoLogDB "EPSS" "e" "{}" 200 (mkRat 1 2) true 100).next_log_id) ∧
    (∀ id e p mv sd t,
        (cache_epss_score demoLogDB id e p mv sd t).api_call_log =
          demoLogDB.api_call_log) ∧
    (∀ id v pr vn da sd ra dd t,
        (cache_cisa_kev demoLogDB id v pr vn da sd ra dd t).api_call_log =
          demoLogDB.api_call_log) ∧
    (∀ id A t,
        (get_epss_score demoLogDB id A t).2.api_call_log = demoLogDB.api_call_log) ∧
    (∀ id A t,
        (is_in_cisa_kev demoLogDB id A t).2.api_call_log = demoLogDB.api_call_log) ∧
    (∀ A t,
        (get_all_cisa_kev_cves demoLogDB A t).2.api_call_log = demoLogDB.api_call_log) ∧
    (∀ t, (get_cache_stats demoLogDB t).2.api_call_log = demoLogDB.api_call_log) ∧
    (∀ eA kA t,
        (clear_expired_cache demoLogDB eA kA t).2.api_call_log =
          demoLogDB.api_call_log) :=
  C7_audit_append_only demoLogDB "EPSS" "e" "{}" 200 (mkRat 1 2) true 100
    (by decide)

theorem nodup_keys_after_replace {α : Type} (key : α → String) [DecidableEq α]
    (l : List α) (id : String) (hn : (l.map key).Nodup) (a : α)
    (ha : key a = id) :
    ((a :: l.filter (fun e => decide (key e ≠ id))).map key).Nodup := by
  simp only [List.map_cons]
  refine List.nodup_cons.mpr ⟨?_, ?_⟩
  · simp only [List.mem_map]
    rintro ⟨x, hx, hxid⟩
    rw [List.mem_filter] at hx
    exact (decide_eq_true_iff.mp hx.2) (hxid.trans ha)
  · exact hn.sublist ((List.filter_sublist l).map key)

/-- C8: every cache operation preserves the table invariant `DBInv`
(at most one row per identifier; `cached_at ≤ last_accessed` in every
row); for the two reads that refresh `last_accessed` this holds whenever
the clock reading is not behind any stored `cached_at` (a monotone wall
clock). -/
theorem C8_invariant (st : DBState) (now : Int) (hst : DBInv st) :
    (∀ id e p mv sd, DBInv (cache_epss_score st id e p mv sd now)) ∧
    (∀ id v pr vn da sds ra dd,
        DBInv (cache_cisa_kev st id v pr vn da sds ra dd now)) ∧
    ((∀ x ∈ st.epss_cache, x.cached_at ≤ now) →
      ∀ id A, DBInv (get_epss_score st id A now).2) ∧
    ((∀ x ∈ st.cisa_kev_cache, x.cached_at ≤ now) →
      ∀ id A, DBInv (is_in_cisa_kev st id A now).2) ∧
    (∀ ty ep ps sc rt c, DBInv (log_api_call st ty ep ps sc rt c now)) ∧
    (∀ eA kA, DBInv (clear_expired_cache st eA kA now).2) := by
  obtain ⟨hne, hnk, hle, hlk⟩ := hst
  refine ⟨?_, ?_, ?_, ?_, fun _ _ _ _ _ _ => ⟨hne, hnk, hle, hlk⟩, ?_⟩
  · intro id e p mv sd
    refine ⟨nodup_keys_after_replace (fun x => x.cve_id) st.epss_cache id hne _ rfl,
      hnk, ?_, hlk⟩
    intro x hx
    rcases List.mem_cons.mp hx with h | h
    · subst h
      exact le_refl now
    · exact hle x (List.mem_of_mem_filter h)
  · intro id v pr vn da sds ra dd
    refine ⟨hne,
      nodup_keys_after_replace (fun x => x.cve_id) st.cisa_kev_cache id hnk _ rfl,
      hle, ?_⟩
    intro x hx
    rcases List.mem_cons.mp hx with h | h
    · subst h
      exact le_refl now
    · exact hlk x (List.mem_of_mem_filter h)
  · intro hclock id A
    unfold get_epss_score
    cases st.epss_cache.find? (fun e => decide (e.cve_id = id)) with
    | none => exact ⟨hne, hnk, hle, hlk⟩
    | some e =>
      by_cases h : now - e.cached_at > A * secondsPerDay
      · simp only [if_pos h]
        exact ⟨hne, hnk, hle, hlk⟩
      · simp only [if_neg h]
        refine ⟨?_, hnk, ?_, hlk⟩
        · show ((st.epss_cache.map (fun x =>
              if x.cve_id = id then { x with last_accessed := now } else x)).map
                (fun e => e.cve_id)).Nodup
          have heq : ((st.epss_cache.map (fun x =>
              if x.cve_id = id then { x with last_accessed := now } else x)).map
                (fun e => e.cve_id)) =
              st.epss_cache.map (fun e => e.cve_id) := by
            rw [List.map_map]
            apply List.map_congr_left
            intro x _
            by_cases hid : x.cve_id = id <;> simp [hid]
          rw [heq]
          exact hne
        · intro x hx
          rcases List.mem_map.mp hx with ⟨y, hy, hxy⟩
          by_cases hid : y.cve_id = id
          · rw [← hxy]
            simp only [if_pos hid]
            exact hclock y hy
          · rw [← hxy]
            simp only [if_neg hid]
            exact hle y hy
  · intro hclock id A
    unfold is_in_cisa_kev
    cases st.cisa_kev_cache.find? (fun e => decide (e.cve_id = id)) with
    | none => exact ⟨hne, hnk, hle, hlk⟩
    | some e =>
      by_cases h : now - e.cached_at > A * secondsPerDay
      · simp only [if_pos h]
        exact ⟨hne, hnk, hle, hlk⟩
      · simp only [if_neg h]
        refine ⟨hne, ?_, hle, ?_⟩
        · show ((st.cisa_kev_cache.map (fun x =>
              if x.cve_id = id then { x with last_accessed := now } else x)).map
                (fun e => e.cve_id)).Nodup
          have heq : ((st.cisa_kev_cache.map (fun x =>
              if x.cve_id = id then { x with last_accessed := now } else x)).map
                (fun e => e.cve_id)) =
              st.cisa_kev_cache.map (fun e => e.cve_id) := by
            rw [List.map_map]
            apply List.map_congr_left
            intro x _
            by_cases hid : x.cve_id = id <;> simp [hid]
          rw [heq]
          exact hnk
        · intro x hx
          rcases List.mem_map.mp hx with ⟨y, hy, hxy⟩
          by_cases hid : y.cve_id = id
          · rw [← hxy]
            simp only [if_pos hid]
            exact hclock y hy
          · rw [← hxy]
            simp only [if_neg hid]
            exact hlk y hy
  · intro eA kA
    refine ⟨?_, ?_, ?_, ?_⟩
    · exact hne.sublist ((List.filter_sublist st.epss_cache).map (fun e => e.cve_id))
    · exact hnk.sublist ((List.filter_sublist st.cisa_kev_cache).map (fun e => e.cve_id))
    · intro x hx
      exact hle x (List.mem_of_mem_filter hx)
    · intro x hx
      exact hlk x (List.mem_of_mem_filter hx)

/-- Witness for C8: upserting into a fresh database yields a state
satisfying the invariant. -/
theorem C8_invariant_witness :
    DBInv (cache_epss_score emptyDB "CVE-7" (mkRat 7 10) 97 "v" "2024-05-01" 5) :=
  (C8_invariant emptyDB 5
    ⟨by decide, by decide, by decide, by decide⟩).1
    "CVE-7" (mkRat 7 10) 97 "v" "2024-05-01"

/-- C9 (code bug): the 24-hour-window claim fails on the code.  The SQL
filter `timestamp > datetime('now', '-24 hours')` compares the stored
local `isoformat()` string (`'T'` separator) against SQLite's UTC string
(`' '` separator) as TEXT; since `'T' > ' '` every same-date comparison
favors the stored string, so the filter has calendar-date granularity.
Concretely, the sole audit entry of `staleLogDB`, stamped at time 0, is
still counted by a report at the last second of the following day, even
though its age — 172799 seconds — is nearly twice the 86400-second window
that both the claim and the code's own `'-24 hours'` modifier intend. -/
theorem C9_window_bug :
    (get_cache_stats staleLogDB (2 * secondsPerDay - 1)).1.recent_calls_by_type
        "EPSS" = 1 ∧
    (2 * secondsPerDay - 1) - 0 > secondsPerDay := by
  decide

/-- C10: a read that misses leaves the database untouched — when
`get_epss_score` returns `None` or `is_in_cisa_kev` returns `False`
(absent or stale row), the state after the call equals the state before
it — and `get_all_cisa_kev_cves` never changes the state at all. -/
theorem C10_miss_no_mutation (st : DBState) (id : String) (A now : Int) :
    ((get_epss_score st id A now).1 = none →
      (get_epss_score st id A now).2 = st) ∧
    ((is_in_cisa_kev st id A now).1 = false →
      (is_in_cisa_kev st id A now).2 = st) ∧
    ((get_all_cisa_kev_cves st A now).2 = st) := by
  refine ⟨?_, ?_, rfl⟩
  · unfold get_epss_score
    cases st.epss_cache.find? (fun e => decide (e.cve_id = id)) with
    | none => simp
    | some e =>
      by_cases h : now - e.cached_at > A * secondsPerDay <;> simp [h]
  · unfold is_in_cisa_kev
    cases st.cisa_kev_cache.find? (fun e => decide (e.cve_id = id)) with
    | none => simp
    | some e =>
      by_cases h : now - e.cached_at > A * secondsPerDay <;> simp [h]

/-- Witness for C10: an EPSS miss on an empty database and a stale KEV
read (10 days old, 1-day max-age) both leave the state unchanged. -/
theorem C10_miss_no_mutation_witness :
    (get_epss_score emptyDB "CVE-1" 7 0).2 = emptyDB ∧
    (is_in_cisa_kev kevBoundaryDB "CVE-1" 1 (10 * 86400)).2 = kevBoundaryDB ∧
    (get_all_cisa_kev_cves kevBoundaryDB 1 (10 * 86400)).2 = kevBoundaryDB :=
  ⟨(C10_miss_no_mutation emptyDB "CVE-1" 7 0).1 (by decide),
   (C10_miss_no_mutation kevBoundaryDB "CVE-1" 1 (10 * 86400)).2.1 (by decide),
   (C10_miss_no_mutation kevBoundaryDB "CVE-1" 1 (10 * 86400)).2.2⟩
